import Mathlib

/-!
Verification development for the jigsaw-puzzle geometry engine of the
maker-week-25-puzzle Figma plugin.  The definitions below are a shallow
embedding of the final revision of the plugin's main code
(`src/unnamed/part_001`, the revision defining `edgeWithStud`,
`buildPiecePath`, `calculatePieceBounds` and the `create-puzzle` handler
with per-piece computed bounds).  JavaScript numbers are modelled as exact
rationals (`ℚ`); path data strings are modelled as lists of path commands
(one constructor per SVG-style command letter emitted by the code); the
ambient `Math.random() < 0.5` draws of the neighbor-assignment loop are
modelled as an explicit boolean stream `g : Nat → Bool` consumed in program
order.
-/

set_option maxHeartbeats 1000000

namespace Puzzle

/-- One command of a piece's vector path.  The source emits path data as a
string via the helpers `L` and `C` plus a leading `M 0 0` and a trailing
`Z`; we keep the commands structured. -/
inductive PathCmd where
  | move : ℚ × ℚ → PathCmd
  | line : ℚ × ℚ → PathCmd
  | curve : ℚ × ℚ → ℚ × ℚ → ℚ × ℚ → PathCmd
  | close : PathCmd
deriving DecidableEq

/-- Embeds the source's `Side` union type. -/
inductive Side where
  | top
  | right
  | bottom
  | left
deriving DecidableEq

/-- Embeds the source's `StudConfig` record. -/
structure StudConfig where
  widthFactor : ℚ
  depthFactor : ℚ
  rise1 : ℚ
  rise2 : ℚ
  blend : ℚ
  cornerJog : ℚ
deriving DecidableEq

/-- Embeds the source's `STUD_CFG` constant of the per-piece-bounds revision
(`src/unnamed/part_001` line 309): the decimal literals 0.5, 0.7, 0.2 are the
rationals 1/2, 7/10, 1/5 and `cornerJog` is 0. -/
def STUD_CFG : StudConfig :=
  { widthFactor := 1 / 3
    depthFactor := 1 / 6
    rise1 := 1 / 2
    rise2 := 7 / 10
    blend := 1 / 5
    cornerJog := 0 }

/-- Embeds `makeSideTransform`: the fixed rotation mapping the canonical
top-frame coordinates onto each side. -/
def makeSideTransform (side : Side) (w h : ℚ) : ℚ × ℚ → ℚ × ℚ :=
  fun p =>
    match side with
    | .top => (p.1, p.2)
    | .right => (w - p.2, p.1)
    | .bottom => (w - p.1, h - p.2)
    | .left => (p.2, h - p.1)

/-- Embeds `edgeWithStud`.  `hasNeighbor` is the `!!neighbors.side` argument
and `isTab : Option Bool` is `neighbors.side?.isTab` (`none` = undefined).
The JavaScript truthiness test `isTab ? -depth : depth` is `Option.getD false`
(undefined and `false` both select `+depth`). -/
def edgeWithStud (side : Side) (w h : ℚ) (hasNeighbor : Bool)
    (isTab : Option Bool) (cfg : StudConfig) : List PathCmd :=
  let minDim := min w h
  let studW := minDim * cfg.widthFactor
  let depth := minDim * cfg.depthFactor
  let jog := cfg.cornerJog * depth
  let across := if side = Side.top ∨ side = Side.bottom then w else h
  let mid := across / 2
  let half := studW / 2
  let yBase : ℚ := 0
  let dy := if isTab.getD false then -depth else depth
  let blend := cfg.blend
  let rise1 := cfg.rise1 * dy
  let rise2 := cfg.rise2 * dy
  let T := makeSideTransform side w h
  let l := fun (p : ℚ × ℚ) => PathCmd.line (T p)
  let c := fun (p₁ p₂ p : ℚ × ℚ) => PathCmd.curve (T p₁) (T p₂) (T p)
  if !hasNeighbor || isTab.isNone then
    [l (-jog, -jog), l (0, 0), l (across, yBase)]
  else
    [l (-jog, -jog), l (0, 0),
     l (mid - half, yBase),
     c (mid - half + half * blend, yBase) (mid - half, yBase + rise1)
       (mid - half, yBase + rise2),
     c (mid - half, yBase + dy) (mid - half * (1 - blend), yBase + dy)
       (mid, yBase + dy),
     c (mid + half * (1 - blend), yBase + dy) (mid + half, yBase + dy)
       (mid + half, yBase + rise2),
     c (mid + half, yBase + rise1) (mid + half * (1 - blend), yBase)
       (mid + half, yBase),
     l (across, yBase)]

/-- The `{ isTab: boolean }` records that `buildPiecePath` receives per side. -/
structure SideTab where
  isTab : Bool
deriving DecidableEq

/-- The four-sided neighbor view passed to `buildPiecePath` and
`calculatePieceBounds` (field order as in the source annotation). -/
structure PieceNeighbors where
  top : Option SideTab
  right : Option SideTab
  bottom : Option SideTab
  left : Option SideTab
deriving DecidableEq

/-- Embeds `buildPiecePath`: one `M 0 0`, the four side segments in the fixed
order top, right, bottom, left, then `Z`. -/
def buildPiecePath (w h : ℚ) (nb : PieceNeighbors) (cfg : StudConfig) :
    List PathCmd :=
  PathCmd.move (0, 0) ::
    (edgeWithStud Side.top w h nb.top.isSome (nb.top.map SideTab.isTab) cfg ++
     edgeWithStud Side.right w h nb.right.isSome (nb.right.map SideTab.isTab) cfg ++
     edgeWithStud Side.bottom w h nb.bottom.isSome (nb.bottom.map SideTab.isTab) cfg ++
     edgeWithStud Side.left w h nb.left.isSome (nb.left.map SideTab.isTab) cfg ++
     [PathCmd.close])

/-- The `{minX, maxX, minY, maxY}` record of `calculatePieceBounds`. -/
structure PieceBounds where
  minX : ℚ
  maxX : ℚ
  minY : ℚ
  maxY : ℚ
deriving DecidableEq

/-- Embeds `calculatePieceBounds`.  `neighbors.left?.isTab ? -depth : 0` is
again the truthiness test `(… .map SideTab.isTab).getD false`. -/
def calculatePieceBounds (neighbors : PieceNeighbors) (w h : ℚ)
    (cfg : StudConfig) : PieceBounds :=
  let depth := min w h * cfg.depthFactor
  { minX := if (neighbors.left.map SideTab.isTab).getD false then -depth else 0
    maxX := w + (if (neighbors.right.map SideTab.isTab).getD false then depth else 0)
    minY := if (neighbors.top.map SideTab.isTab).getD false then -depth else 0
    maxY := h + (if (neighbors.bottom.map SideTab.isTab).getD false then depth else 0) }

/-- Embeds the source's `Neighbor` record (`{neighborId, isTab}`); the opaque
Figma node id of a grid cell is modelled by its `(row, col)` position. -/
structure Neighbor where
  neighborId : Nat × Nat
  isTab : Bool
deriving DecidableEq

/-- Embeds the source's `NeighborsData` record. -/
structure NeighborsData where
  left : Option Neighbor
  right : Option Neighbor
  top : Option Neighbor
  bottom : Option Neighbor
deriving DecidableEq

/-- Number of `Math.random()` draws the neighbor-assignment loop makes at cell
`(r, c)` of an `R × C` grid: one for `right` when a right neighbor exists and
one for `bottom` when a bottom neighbor exists (object-literal evaluation
order puts the `right` draw before the `bottom` draw). -/
def cellDraws (R C r c : Nat) : Nat :=
  (if c + 1 < C then 1 else 0) + (if r + 1 < R then 1 else 0)

/-- Draws made by the cells of row `r` with column below `c`. -/
def rowDrawsBefore (R C r c : Nat) : Nat :=
  ((List.range c).map fun c0 => cellDraws R C r c0).sum

/-- Draws made before the loop reaches cell `(r, c)` in its row-major sweep. -/
def drawsBefore (R C r c : Nat) : Nat :=
  ((List.range r).map fun r0 => rowDrawsBefore R C r0 C).sum + rowDrawsBefore R C r c

/-- The boolean `Math.random() < 0.5` decided for the `right` relationship of
cell `(r, c)`: the first draw made at that cell, taken from the stream `g`. -/
def rightIsTab (R C : Nat) (g : Nat → Bool) (r c : Nat) : Bool :=
  g (drawsBefore R C r c)

/-- The boolean decided for the `bottom` relationship of cell `(r, c)`: the
draw after the cell's `right` draw (when that one exists). -/
def bottomIsTab (R C : Nat) (g : Nat → Bool) (r c : Nat) : Bool :=
  g (drawsBefore R C r c + (if c + 1 < C then 1 else 0))

/-- Embeds the `neighborsData` assignment loop of the `create-puzzle` handler:
`left` is present when `col - 1 >= 0` and copies the logical negation of the
already-decided `right` value of cell `(r, c-1)`; `right` is present when
`col + 1 < C` and is freshly drawn; `top` negates the previous row's `bottom`;
`bottom` is freshly drawn when `row + 1 < R`. -/
def neighborsData (R C : Nat) (g : Nat → Bool) (r c : Nat) : NeighborsData :=
  { left :=
      if 0 < c then
        some ⟨(r, c - 1), !(rightIsTab R C g r (c - 1))⟩
      else none
    right :=
      if c + 1 < C then
        some ⟨(r, c + 1), rightIsTab R C g r c⟩
      else none
    top :=
      if 0 < r then
        some ⟨(r - 1, c), !(bottomIsTab R C g (r - 1) c)⟩
      else none
    bottom :=
      if r + 1 < R then
        some ⟨(r + 1, c), bottomIsTab R C g r c⟩
      else none }

/-- The whole neighbor table of an `R × C` grid, row-major, as produced by the
assignment loop. -/
def neighborsTable (R C : Nat) (g : Nat → Bool) : List (List NeighborsData) :=
  (List.range R).map fun r => (List.range C).map fun c => neighborsData R C g r c

/-- Embeds the `neighborShape` projection done in the path loop: each
`Neighbor` record is narrowed to its `isTab` field. -/
def pieceNeighborShape (nd : NeighborsData) : PieceNeighbors :=
  { top := nd.top.map fun n => ⟨n.isTab⟩
    right := nd.right.map fun n => ⟨n.isTab⟩
    bottom := nd.bottom.map fun n => ⟨n.isTab⟩
    left := nd.left.map fun n => ⟨n.isTab⟩ }

/-- The paths built for every piece of the grid (the Phase 2 loop): a pure
function of the dimensions, the config and the neighbor table derived from
the draw stream `g`. -/
def piecePaths (R C : Nat) (w h : ℚ) (cfg : StudConfig) (g : Nat → Bool) :
    List (List (List PathCmd)) :=
  (List.range R).map fun r =>
    (List.range C).map fun c =>
      buildPiecePath w h (pieceNeighborShape (neighborsData R C g r c)) cfg

/-- Embeds the local `pieceBounds` of the handler's first loop: placeholder
bounds computed from `maxDepth` and the grid position alone ("for now use max
bounds" per the source comment), assuming a protruding tab on every internal
side. -/
def pieceBounds (rows columns : Nat) (pieceWidth pieceHeight : ℚ)
    (row col : Nat) : PieceBounds :=
  let maxDepth := min pieceWidth pieceHeight * STUD_CFG.depthFactor
  { minX := if 0 < col then -maxDepth else 0
    maxX := pieceWidth + (if col + 1 < columns then maxDepth else 0)
    minY := if 0 < row then -maxDepth else 0
    maxY := pieceHeight + (if row + 1 < rows then maxDepth else 0) }

/-- The 2×3 affine fill transform `[[m00, m01, m02], [m10, m11, m12]]`. -/
structure ImageTransform where
  m00 : ℚ
  m01 : ℚ
  m02 : ℚ
  m10 : ℚ
  m11 : ℚ
  m12 : ℚ
deriving DecidableEq

/-- Embeds the `imageTransform` the handler's first loop assigns to each
piece's image fill: scale and translation computed from the placeholder
`pieceBounds`, never recomputed after the actual bounds are known. -/
def imageTransform (rows columns : Nat) (W H pieceWidth pieceHeight : ℚ)
    (row col : Nat) : ImageTransform :=
  let pb := pieceBounds rows columns pieceWidth pieceHeight row col
  let boundsWidth := pb.maxX - pb.minX
  let boundsHeight := pb.maxY - pb.minY
  { m00 := boundsWidth / W
    m01 := 0
    m02 := ((col : ℚ) * pieceWidth + pb.minX) / W
    m10 := 0
    m11 := boundsHeight / H
    m12 := ((row : ℚ) * pieceHeight + pb.minY) / H }

/-- Modelled from the spec: the image-sampling transform §4.4 prescribes,
computed from the piece's own bounds rectangle — scale
`(maxX - minX) / sourceImageWidth` and `(maxY - minY) / sourceImageHeight`,
translation shifted by `(minX, minY)` relative to the nominal grid position.
Stated only for comparison with `imageTransform` above. -/
def specImageTransform (bounds : PieceBounds) (W H pieceWidth pieceHeight : ℚ)
    (row col : Nat) : ImageTransform :=
  { m00 := (bounds.maxX - bounds.minX) / W
    m01 := 0
    m02 := ((col : ℚ) * pieceWidth + bounds.minX) / W
    m10 := 0
    m11 := (bounds.maxY - bounds.minY) / H
    m12 := ((row : ℚ) * pieceHeight + bounds.minY) / H }

/-- True exactly on line commands. -/
def isLineCmd : PathCmd → Bool
  | .line _ => true
  | _ => false

/-- Embeds the handler's `offsetPathData` computation: the source replaces the
leading move by string surgery,
`'M ' + (-minX) + ' ' + (-minY) + pathData.substring(pathData.indexOf('L'))`.
The character `L` first occurs at the path's first line command (the prefix
`M 0 0 ` contains no `L` and numbers contain no letters), so at the command
level this keeps everything from the first line command onward and puts a new
move in front. -/
def offsetPathData (bounds : PieceBounds) (pathData : List PathCmd) :
    List PathCmd :=
  PathCmd.move (-bounds.minX, -bounds.minY) ::
    pathData.dropWhile fun cmd => !(isLineCmd cmd)

/-- Embeds the `create-puzzle` message of the per-piece-bounds revision
(image bytes are out of scope of the geometry core and omitted). -/
structure CreatePuzzleMessage where
  rows : Int
  columns : Int
  originalImageWidth : ℚ
  originalImageHeight : ℚ
deriving DecidableEq

/-- Modelled from the spec: §7 names the error kinds `InvalidGridDimensions`
and `InvalidImageDimensions`.  The handler in the source has no rejection
branch, so no code path below ever produces one of these. -/
inductive GenError where
  | invalidGridDimensions
  | invalidImageDimensions
deriving DecidableEq

/-- The observable per-piece state the handler leaves on each vector node:
the neighbor record stored as plugin data, the fill transform, the final
(offset) path and the resized node dimensions. -/
structure PieceOutput where
  row : Nat
  col : Nat
  neighbors : NeighborsData
  transform : ImageTransform
  path : List PathCmd
  width : ℚ
  height : ℚ
deriving DecidableEq

/-- The pieces produced by the handler's loops, row-major.  The `for` loops
run `rows × columns` iterations; for non-positive `rows` or `columns` they
run zero times, which `Int.toNat` models. -/
def createPuzzlePieces (msg : CreatePuzzleMessage) (g : Nat → Bool) :
    List PieceOutput :=
  let R := msg.rows.toNat
  let C := msg.columns.toNat
  let pieceWidth := msg.originalImageWidth / (msg.columns : ℚ)
  let pieceHeight := msg.originalImageHeight / (msg.rows : ℚ)
  (List.range R).flatMap fun row =>
    (List.range C).map fun col =>
      let nd := neighborsData R C g row col
      let shape := pieceNeighborShape nd
      let bounds := calculatePieceBounds shape pieceWidth pieceHeight STUD_CFG
      let pathData := buildPiecePath pieceWidth pieceHeight shape STUD_CFG
      { row := row
        col := col
        neighbors := nd
        transform := imageTransform R C msg.originalImageWidth
          msg.originalImageHeight pieceWidth pieceHeight row col
        path := offsetPathData bounds pathData
        width := bounds.maxX - bounds.minX
        height := bounds.maxY - bounds.minY }

/-- The whole `create-puzzle` handler result.  The source performs no input
validation and ends by notifying success unconditionally, so the embedding
always returns `Except.ok`; `GenError` exists to express the rejection the
spec asks for. -/
def createPuzzle (msg : CreatePuzzleMessage) (g : Nat → Bool) :
    Except GenError (List PieceOutput × Int × Int) :=
  Except.ok (createPuzzlePieces msg g, msg.rows, msg.columns)

/-- Pen position after executing a command list from position `p`.  Move,
line and curve commands leave the pen at their target point; a close command
is only ever measured here on lists that do not contain it, so it leaves the
position unchanged. -/
def penAfter : ℚ × ℚ → List PathCmd → ℚ × ℚ
  | p, [] => p
  | _, .move q :: rest => penAfter q rest
  | _, .line q :: rest => penAfter q rest
  | _, .curve _ _ q :: rest => penAfter q rest
  | p, .close :: rest => penAfter p rest

/-- Whether a command list contains a move command. -/
def hasMoveCmd (cmds : List PathCmd) : Bool :=
  cmds.any fun cmd =>
    match cmd with
    | .move _ => true
    | _ => false

/-- Whether a command list consists of line commands only. -/
def onlyLineCmds (cmds : List PathCmd) : Bool :=
  cmds.all isLineCmd

/-- Number of cubic Bezier commands in a command list. -/
def countCurveCmds (cmds : List PathCmd) : Nat :=
  cmds.countP fun cmd =>
    match cmd with
    | .curve _ _ _ => true
    | _ => false

theorem penAfter_append (p : ℚ × ℚ) (l₁ l₂ : List PathCmd) :
    penAfter p (l₁ ++ l₂) = penAfter (penAfter p l₁) l₂ := by
  induction l₁ generalizing p with
  | nil => rfl
  | cons cmd rest ih => cases cmd <;> simp [penAfter, ih]

theorem hasMoveCmd_append (l₁ l₂ : List PathCmd) :
    hasMoveCmd (l₁ ++ l₂) = (hasMoveCmd l₁ || hasMoveCmd l₂) := by
  simp [hasMoveCmd, List.any_append]

/-- The across-length of a side (piece width for top/bottom, height for
left/right), as the conditional the source computes. -/
theorem edgeWithStud_end (side : Side) (w h : ℚ) (hn : Bool)
    (it : Option Bool) (cfg : StudConfig) (p : ℚ × ℚ) :
    penAfter p (edgeWithStud side w h hn it cfg) =
      makeSideTransform side w h
        ((if side = Side.top ∨ side = Side.bottom then w else h), 0) := by
  cases hn <;> cases it <;> simp [edgeWithStud, penAfter]

theorem edgeWithStud_no_move (side : Side) (w h : ℚ) (hn : Bool)
    (it : Option Bool) (cfg : StudConfig) :
    hasMoveCmd (edgeWithStud side w h hn it cfg) = false := by
  cases hn <;> cases it <;> simp [edgeWithStud, hasMoveCmd]

theorem edgeWithStud_head (side : Side) (w h : ℚ) (hn : Bool)
    (it : Option Bool) (cfg : StudConfig) :
    ∃ tail,
      edgeWithStud side w h hn it cfg =
        PathCmd.line (makeSideTransform side w h
          (-(cfg.cornerJog * (min w h * cfg.depthFactor)),
           -(cfg.cornerJog * (min w h * cfg.depthFactor)))) :: tail := by
  cases hn <;> cases it <;> exact ⟨_, rfl⟩

/-- Applies a coordinate map to every point of a path command. -/
def mapCmd (T : ℚ × ℚ → ℚ × ℚ) : PathCmd → PathCmd
  | .move p => .move (T p)
  | .line p => .line (T p)
  | .curve p₁ p₂ p => .curve (T p₁) (T p₂) (T p)
  | .close => .close

/-- Modelled from the spec (§4.2, with the curve count amended to four): the
stud profile authored once in the canonical top frame, parametrized by the
signed depth `dy` so that tab/indent polarity enters only through the sign of
`dy`.  It is the corner-chamfer pair (degenerate when `jog = 0`), a straight
run to `mid - half`, four cubic curves with intermediate control heights
`r1 * dy` and `r2 * dy` and crown shoulders rounded by `blend`, then a
straight run to the far end of the side. -/
def canonicalStudProfile (across studW jog dy blend r1 r2 : ℚ) :
    List PathCmd :=
  let mid := across / 2
  let half := studW / 2
  let rise1 := r1 * dy
  let rise2 := r2 * dy
  [.line (-jog, -jog), .line (0, 0),
   .line (mid - half, 0),
   .curve (mid - half + half * blend, 0) (mid - half, 0 + rise1)
     (mid - half, 0 + rise2),
   .curve (mid - half, 0 + dy) (mid - half * (1 - blend), 0 + dy)
     (mid, 0 + dy),
   .curve (mid + half * (1 - blend), 0 + dy) (mid + half, 0 + dy)
     (mid + half, 0 + rise2),
   .curve (mid + half, 0 + rise1) (mid + half * (1 - blend), 0)
     (mid + half, 0),
   .line (across, 0)]

theorem dropLast_append_singleton {α : Type} (l : List α) (a : α) :
    (l ++ [a]).dropLast = l := by
  simp

theorem getLast?_append_singleton {α : Type} (l : List α) (a : α) :
    (l ++ [a]).getLast? = some a := by
  simp [List.getLast?_append]

theorem map_pointwise_of_map_eq {α β : Type} {l : List α} {f f' : α → β}
    (h : l.map f = l.map f') : ∀ a ∈ l, f a = f' a := by
  induction l with
  | nil => intro a ha; cases ha
  | cons x xs ih =>
    simp only [List.map_cons, List.cons.injEq] at h
    intro a ha
    rcases List.mem_cons.mp ha with rfl | hmem
    · exact h.1
    · exact ih h.2 a hmem

theorem map_congr_mem {α β : Type} {l : List α} {f f' : α → β}
    (h : ∀ a ∈ l, f a = f' a) : l.map f = l.map f' := by
  induction l with
  | nil => rfl
  | cons x xs ih =>
    simp only [List.map_cons]
    exact congrArg₂ _ (h x (List.mem_cons_self x xs))
      (ih fun a ha => h a (List.mem_cons_of_mem x ha))

/-- Claim C1: for every pair of horizontally adjacent cells `(r,c)` and
`(r,c+1)` in a generated grid, the right descriptor of `(r,c)` and the left
descriptor of `(r,c+1)` have opposite `isTab` values, and for every pair of
vertically adjacent cells, the bottom descriptor of `(r,c)` and the top
descriptor of `(r+1,c)` have opposite `isTab` values.  Both descriptors are
present, and mapping negation over one side's `isTab` yields the other. -/
theorem neighbor_tabs_complementary (R C : Nat) (g : Nat → Bool) (r c : Nat) :
    (c + 1 < C →
      (neighborsData R C g r c).right.isSome = true ∧
      (neighborsData R C g r c).right.map Neighbor.isTab =
        (neighborsData R C g r (c + 1)).left.map fun n => !n.isTab) ∧
    (r + 1 < R →
      (neighborsData R C g r c).bottom.isSome = true ∧
      (neighborsData R C g r c).bottom.map Neighbor.isTab =
        (neighborsData R C g (r + 1) c).top.map fun n => !n.isTab) := by
  constructor
  · intro hc
    simp [neighborsData, hc]
  · intro hr
    simp [neighborsData, hr]

theorem neighbor_tabs_complementary_witness :
    ((neighborsData 2 2 (fun _ => false) 0 0).right.isSome = true ∧
      (neighborsData 2 2 (fun _ => false) 0 0).right.map Neighbor.isTab =
        (neighborsData 2 2 (fun _ => false) 0 1).left.map fun n => !n.isTab) ∧
    ((neighborsData 2 2 (fun _ => false) 0 0).bottom.isSome = true ∧
      (neighborsData 2 2 (fun _ => false) 0 0).bottom.map Neighbor.isTab =
        (neighborsData 2 2 (fun _ => false) 1 0).top.map fun n => !n.isTab) :=
  ⟨(neighbor_tabs_complementary 2 2 (fun _ => false) 0 0).1 (by decide),
   (neighbor_tabs_complementary 2 2 (fun _ => false) 0 0).2 (by decide)⟩

/-- Claim C3: the computed bounds follow the formulas
`minX = (left.isTab ? -depth : 0)`, `maxX = width + (right.isTab ? depth : 0)`
and the analogous formulas for `minY`/`maxY`, with
`depth = min(width, height) * depthFactor`; and in the concrete Scenario C
(tabs on right and bottom only, 90 × 90 piece, `depthFactor = 1/6`) the
bounds are `{minX := 0, maxX := 105, minY := 0, maxY := 105}`. -/
theorem calculatePieceBounds_spec :
    (∀ (nb : PieceNeighbors) (w h : ℚ) (cfg : StudConfig),
      calculatePieceBounds nb w h cfg =
        { minX := if (nb.left.map SideTab.isTab).getD false then
              -(min w h * cfg.depthFactor) else 0
          maxX := w + (if (nb.right.map SideTab.isTab).getD false then
              min w h * cfg.depthFactor else 0)
          minY := if (nb.top.map SideTab.isTab).getD false then
              -(min w h * cfg.depthFactor) else 0
          maxY := h + (if (nb.bottom.map SideTab.isTab).getD false then
              min w h * cfg.depthFactor else 0) }) ∧
    calculatePieceBounds ⟨none, some ⟨true⟩, some ⟨true⟩, none⟩ 90 90 STUD_CFG =
      ⟨0, 105, 0, 105⟩ :=
  ⟨fun _ _ _ _ => rfl, by norm_num [calculatePieceBounds, STUD_CFG]⟩

/-- Claim C5, counterexample: the bump between the two straight runs is formed
by four cubic Bezier commands, not two as claimed; evaluated on a 90 × 90 tab
side with the source's configuration. -/
theorem stud_profile_has_four_cubics :
    countCurveCmds (edgeWithStud Side.top 90 90 true (some true) STUD_CFG) = 4 ∧
    ¬ countCurveCmds (edgeWithStud Side.top 90 90 true (some true) STUD_CFG) = 2 := by
  decide

/-- Claim C5, amended: for every side with a neighbor, `edgeWithStud` emits
the canonical top-frame profile — corner chamfer pair, straight run to
`mid - half`, FOUR cubic Bezier curves forming the rounded trapezoidal bump of
signed depth `dy = (isTab ? -depth : +depth)` with control heights `rise1*dy`
and `rise2*dy` and `blend`-rounded shoulders, straight run to the far end —
mapped through the side's rotation; the profile receives polarity only
through the signed value `dy`, so the sign of `dy` is the only place
tab-versus-indent polarity enters the geometry. -/
theorem edgeWithStud_canonical_profile (side : Side) (w h : ℚ)
    (cfg : StudConfig) (b : Bool) :
    edgeWithStud side w h true (some b) cfg =
      (canonicalStudProfile (if side = Side.top ∨ side = Side.bottom then w else h)
          (min w h * cfg.widthFactor)
          (cfg.cornerJog * (min w h * cfg.depthFactor))
          (if b then -(min w h * cfg.depthFactor) else min w h * cfg.depthFactor)
          cfg.blend cfg.rise1 cfg.rise2).map
        (mapCmd (makeSideTransform side w h)) := by
  cases b <;> rfl

/-- Claim C2: `buildPiecePath` composes the four side segments in the fixed
order top, right, bottom, left as one continuous subpath — a single initial
move, no move command anywhere after it — each side's segment ends exactly at
the starting corner of the next side, the contour is closed explicitly by the
final close command, and the pen position after the four segments equals the
start point `(0, 0)`. -/
theorem buildPiecePath_closed_contour (w h : ℚ) (nb : PieceNeighbors)
    (cfg : StudConfig) :
    buildPiecePath w h nb cfg =
      PathCmd.move (0, 0) ::
        (edgeWithStud Side.top w h nb.top.isSome (nb.top.map SideTab.isTab) cfg ++
         edgeWithStud Side.right w h nb.right.isSome (nb.right.map SideTab.isTab) cfg ++
         edgeWithStud Side.bottom w h nb.bottom.isSome (nb.bottom.map SideTab.isTab) cfg ++
         edgeWithStud Side.left w h nb.left.isSome (nb.left.map SideTab.isTab) cfg ++
         [PathCmd.close]) ∧
    hasMoveCmd ((buildPiecePath w h nb cfg).drop 1) = false ∧
    penAfter (0, 0)
        (edgeWithStud Side.top w h nb.top.isSome (nb.top.map SideTab.isTab) cfg) =
      (w, 0) ∧
    penAfter (w, 0)
        (edgeWithStud Side.right w h nb.right.isSome (nb.right.map SideTab.isTab) cfg) =
      (w, h) ∧
    penAfter (w, h)
        (edgeWithStud Side.bottom w h nb.bottom.isSome (nb.bottom.map SideTab.isTab) cfg) =
      (0, h) ∧
    penAfter (0, h)
        (edgeWithStud Side.left w h nb.left.isSome (nb.left.map SideTab.isTab) cfg) =
      (0, 0) ∧
    penAfter (0, 0)
        (edgeWithStud Side.top w h nb.top.isSome (nb.top.map SideTab.isTab) cfg ++
         edgeWithStud Side.right w h nb.right.isSome (nb.right.map SideTab.isTab) cfg ++
         edgeWithStud Side.bottom w h nb.bottom.isSome (nb.bottom.map SideTab.isTab) cfg ++
         edgeWithStud Side.left w h nb.left.isSome (nb.left.map SideTab.isTab) cfg) =
      (0, 0) := by
  refine ⟨rfl, ?_, ?_, ?_, ?_, ?_, ?_⟩
  · simp only [buildPiecePath, List.drop_succ_cons, List.drop_zero,
      hasMoveCmd_append, edgeWithStud_no_move]
    simp [hasMoveCmd]
  · rw [edgeWithStud_end]; simp [makeSideTransform]
  · rw [edgeWithStud_end]; simp [makeSideTransform]
  · rw [edgeWithStud_end]; simp [makeSideTransform]
  · rw [edgeWithStud_end]; simp [makeSideTransform]
  · simp only [penAfter_append, edgeWithStud_end]
    simp [makeSideTransform]

/-- Claim C7: the `create-puzzle` handler draws its tab assignments from the
ambient, unseedable `Math.random()` — no seed appears anywhere in the message
interface — so two runs whose ambient draw sequences differ produce different
NeighborsData.  Evaluated on a 3 × 3 grid with the all-true and the all-false
draw streams: cell (0,0) and the whole table already differ. -/
theorem neighborsData_not_reproducible_unseeded :
    neighborsData 3 3 (fun _ => true) 0 0 ≠ neighborsData 3 3 (fun _ => false) 0 0 ∧
    neighborsTable 3 3 (fun _ => true) ≠ neighborsTable 3 3 (fun _ => false) := by
  decide

/-- Claim C8: a piece on the grid's outer boundary has no neighbor descriptor
on its outward side (column 0 no left, last column no right, row 0 no top,
last row no bottom), and a side rendered without a neighbor is a straight
edge whose segment contains only line commands and no cubic Bezier
commands. -/
theorem border_sides_no_descriptor_and_straight (R C : Nat) (g : Nat → Bool)
    (r c : Nat) (side : Side) (w h : ℚ) (cfg : StudConfig)
    (hr : r < R) (hc : c < C) :
    (c = 0 → (neighborsData R C g r c).left = none) ∧
    (c + 1 = C → (neighborsData R C g r c).right = none) ∧
    (r = 0 → (neighborsData R C g r c).top = none) ∧
    (r + 1 = R → (neighborsData R C g r c).bottom = none) ∧
    onlyLineCmds (edgeWithStud side w h false none cfg) = true := by
  refine ⟨?_, ?_, ?_, ?_, ?_⟩
  · intro h0; subst h0; simp [neighborsData]
  · intro hC; subst hC; simp [neighborsData]
  · intro h0; subst h0; simp [neighborsData]
  · intro hR; subst hR; simp [neighborsData]
  · simp [edgeWithStud, onlyLineCmds, isLineCmd]

theorem border_sides_no_descriptor_and_straight_witness :
    ((0 : Nat) = 0 → (neighborsData 1 1 (fun _ => false) 0 0).left = none) ∧
    ((0 : Nat) + 1 = 1 → (neighborsData 1 1 (fun _ => false) 0 0).right = none) ∧
    ((0 : Nat) = 0 → (neighborsData 1 1 (fun _ => false) 0 0).top = none) ∧
    ((0 : Nat) + 1 = 1 → (neighborsData 1 1 (fun _ => false) 0 0).bottom = none) ∧
    onlyLineCmds (edgeWithStud Side.top 90 90 false none STUD_CFG) = true :=
  border_sides_no_descriptor_and_straight 1 1 (fun _ => false) 0 0 Side.top
    90 90 STUD_CFG (by decide) (by decide)

/-- Claim C9: path construction is deterministic and free of randomness after
edge assignment — the per-piece paths are a function of the dimensions, the
config and the neighbor table alone, so any two draw streams that produce the
same neighbor table produce identical path output for every piece. -/
theorem piecePaths_deterministic (R C : Nat) (w h : ℚ) (cfg : StudConfig)
    (g₁ g₂ : Nat → Bool)
    (htable : neighborsTable R C g₁ = neighborsTable R C g₂) :
    piecePaths R C w h cfg g₁ = piecePaths R C w h cfg g₂ := by
  have hrow := map_pointwise_of_map_eq htable
  refine map_congr_mem fun r hrmem => ?_
  have hcell := map_pointwise_of_map_eq (hrow r hrmem)
  exact map_congr_mem fun c hcmem => by rw [hcell c hcmem]

theorem piecePaths_deterministic_witness :
    piecePaths 1 1 90 90 STUD_CFG (fun _ => true) =
      piecePaths 1 1 90 90 STUD_CFG (fun _ => false) :=
  piecePaths_deterministic 1 1 90 90 STUD_CFG (fun _ => true) (fun _ => false)
    (by decide)

theorem flatMap_const_nil {α β : Type} (l : List α) :
    (l.flatMap fun _ => ([] : List β)) = [] := by
  induction l with
  | nil => rfl
  | cons x xs ih => simp [ih]

/-- Claim C6, counterexample: with `rows = -1` (so rows ≤ 0) the handler does
not reject — it runs to completion, produces an empty piece list and reports
success (the notified grid size is carried in the result). -/
theorem createPuzzle_accepts_invalid_dimensions :
    createPuzzle ⟨-1, 3, 100, 100⟩ (fun _ => false) =
      Except.ok ([], -1, 3) := rfl

/-- Claim C6, amended: generation never rejects — for every message and draw
stream the handler completes successfully with the piece list it built, and
when `rows ≤ 0` or `columns ≤ 0` the loops simply run zero times, so the
successful result carries an empty piece list; no error value is ever
produced. -/
theorem createPuzzle_never_rejects (msg : CreatePuzzleMessage)
    (g : Nat → Bool) :
    createPuzzle msg g =
      Except.ok (createPuzzlePieces msg g, msg.rows, msg.columns) ∧
    (msg.rows ≤ 0 ∨ msg.columns ≤ 0 → createPuzzlePieces msg g = []) := by
  refine ⟨rfl, ?_⟩
  intro hle
  rcases hle with hr | hc
  · have h0 : msg.rows.toNat = 0 := Int.toNat_of_nonpos hr
    simp [createPuzzlePieces, h0]
  · have h0 : msg.columns.toNat = 0 := Int.toNat_of_nonpos hc
    simp [createPuzzlePieces, h0, flatMap_const_nil]

theorem createPuzzle_never_rejects_witness :
    createPuzzle ⟨-1, 3, 100, 100⟩ (fun _ => false) =
      Except.ok (createPuzzlePieces ⟨-1, 3, 100, 100⟩ (fun _ => false), -1, 3) ∧
    createPuzzlePieces ⟨-1, 3, 100, 100⟩ (fun _ => false) = [] :=
  ⟨(createPuzzle_never_rejects ⟨-1, 3, 100, 100⟩ (fun _ => false)).1,
   (createPuzzle_never_rejects ⟨-1, 3, 100, 100⟩ (fun _ => false)).2
     (Or.inl (by decide))⟩

/-- Claim C4: the fill transform the handler hands to rendering is computed
from the placeholder max-depth bounds of the first loop, not from the piece's
own computed bounds.  Failing input: a 1 × 2 grid over a 200 × 100 image with
every draw false, piece (0,0): its right side is an indent, so its own bounds
give x-scale 1/2, but the code's transform has x-scale
(100 + 50/3) / 200 = 7/12. -/
theorem imageTransform_ignores_computed_bounds :
    imageTransform 1 2 200 100 100 100 0 0 =
      ⟨7/12, 0, 0, 0, 1, 0⟩ ∧
    specImageTransform
        (calculatePieceBounds
          (pieceNeighborShape (neighborsData 1 2 (fun _ => false) 0 0))
          100 100 STUD_CFG) 200 100 100 100 0 0 =
      ⟨1/2, 0, 0, 0, 1, 0⟩ ∧
    imageTransform 1 2 200 100 100 100 0 0 ≠
      specImageTransform
        (calculatePieceBounds
          (pieceNeighborShape (neighborsData 1 2 (fun _ => false) 0 0))
          100 100 STUD_CFG) 200 100 100 100 0 0 := by
  have h1 : imageTransform 1 2 200 100 100 100 0 0 =
      ⟨7/12, 0, 0, 0, 1, 0⟩ := by
    norm_num [imageTransform, pieceBounds, STUD_CFG]
  have h2 : specImageTransform
      (calculatePieceBounds
        (pieceNeighborShape (neighborsData 1 2 (fun _ => false) 0 0))
        100 100 STUD_CFG) 200 100 100 100 0 0 =
      ⟨1/2, 0, 0, 0, 1, 0⟩ := by
    norm_num [specImageTransform, calculatePieceBounds, pieceNeighborShape,
      neighborsData, rightIsTab, STUD_CFG]
  refine ⟨h1, h2, ?_⟩
  rw [h1, h2]
  intro hEq
  have hscale := congrArg ImageTransform.m00 hEq
  norm_num at hscale

/-- Claim C10: in the per-piece-bounds revision (`STUD_CFG`, whose
`cornerJog` is 0), translating a piece's path by `(-minX, -minY)` rewrites
only the initial move command — the offset path is the new move followed by
every command of `buildPiecePath` from the first line command on, unchanged —
so the assigned path begins with a move to `(-minX, -minY)` immediately
followed by a line to `(0, 0)`, the last command is the explicit close, and
the pen sits at `(0, 0)` just before the close while the subpath start the
close returns to is `(-minX, -minY)`. -/
theorem offsetPathData_rewrites_only_initial_move (w h : ℚ)
    (nb : PieceNeighbors)
    (htab : (nb.left.map SideTab.isTab).getD false = true ∨
      (nb.top.map SideTab.isTab).getD false = true) :
    offsetPathData (calculatePieceBounds nb w h STUD_CFG)
        (buildPiecePath w h nb STUD_CFG) =
      PathCmd.move (-(calculatePieceBounds nb w h STUD_CFG).minX,
          -(calculatePieceBounds nb w h STUD_CFG).minY) ::
        (buildPiecePath w h nb STUD_CFG).drop 1 ∧
    ((buildPiecePath w h nb STUD_CFG).drop 1).head? =
      some (PathCmd.line (0, 0)) ∧
    ((buildPiecePath w h nb STUD_CFG).drop 1).getLast? =
      some PathCmd.close ∧
    penAfter (-(calculatePieceBounds nb w h STUD_CFG).minX,
        -(calculatePieceBounds nb w h STUD_CFG).minY)
      (((buildPiecePath w h nb STUD_CFG).drop 1).dropLast) = (0, 0) := by
  obtain ⟨tTop, hTop⟩ :=
    edgeWithStud_head Side.top w h nb.top.isSome (nb.top.map SideTab.isTab)
      STUD_CFG
  have hjog : makeSideTransform Side.top w h
      (-(STUD_CFG.cornerJog * (min w h * STUD_CFG.depthFactor)),
       -(STUD_CFG.cornerJog * (min w h * STUD_CFG.depthFactor))) = (0, 0) := by
    simp [makeSideTransform, STUD_CFG]
  rw [hjog] at hTop
  have hd1 : (buildPiecePath w h nb STUD_CFG).drop 1 =
      (edgeWithStud Side.top w h nb.top.isSome (nb.top.map SideTab.isTab)
          STUD_CFG ++
       edgeWithStud Side.right w h nb.right.isSome (nb.right.map SideTab.isTab)
          STUD_CFG ++
       edgeWithStud Side.bottom w h nb.bottom.isSome
          (nb.bottom.map SideTab.isTab) STUD_CFG ++
       edgeWithStud Side.left w h nb.left.isSome (nb.left.map SideTab.isTab)
          STUD_CFG) ++ [PathCmd.close] := by
    simp [buildPiecePath, List.append_assoc]
  refine ⟨?_, ?_, ?_, ?_⟩
  · simp only [offsetPathData, buildPiecePath, hTop, List.cons_append,
      List.dropWhile_cons, isLineCmd, Bool.not_false, Bool.not_true,
      if_true, if_false]
    rfl
  · rw [hd1]
    simp [hTop]
  · rw [hd1, getLast?_append_singleton]
  · rw [hd1, dropLast_append_singleton]
    simp only [penAfter_append, edgeWithStud_end]
    simp [makeSideTransform]

theorem offsetPathData_rewrites_only_initial_move_witness :
    offsetPathData
        (calculatePieceBounds
          (pieceNeighborShape (neighborsData 1 2 (fun _ => false) 0 1))
          90 90 STUD_CFG)
        (buildPiecePath 90 90
          (pieceNeighborShape (neighborsData 1 2 (fun _ => false) 0 1))
          STUD_CFG) =
      PathCmd.move
          (-(calculatePieceBounds
            (pieceNeighborShape (neighborsData 1 2 (fun _ => false) 0 1))
            90 90 STUD_CFG).minX,
           -(calculatePieceBounds
            (pieceNeighborShape (neighborsData 1 2 (fun _ => false) 0 1))
            90 90 STUD_CFG).minY) ::
        (buildPiecePath 90 90
          (pieceNeighborShape (neighborsData 1 2 (fun _ => false) 0 1))
          STUD_CFG).drop 1 ∧
    ((buildPiecePath 90 90
        (pieceNeighborShape (neighborsData 1 2 (fun _ => false) 0 1))
        STUD_CFG).drop 1).head? = some (PathCmd.line (0, 0)) ∧
    ((buildPiecePath 90 90
        (pieceNeighborShape (neighborsData 1 2 (fun _ => false) 0 1))
        STUD_CFG).drop 1).getLast? = some PathCmd.close ∧
    penAfter
        (-(calculatePieceBounds
          (pieceNeighborShape (neighborsData 1 2 (fun _ => false) 0 1))
          90 90 STUD_CFG).minX,
         -(calculatePieceBounds
          (pieceNeighborShape (neighborsData 1 2 (fun _ => false) 0 1))
          90 90 STUD_CFG).minY)
      (((buildPiecePath 90 90
          (pieceNeighborShape (neighborsData 1 2 (fun _ => false) 0 1))
          STUD_CFG).drop 1).dropLast) = (0, 0) :=
  offsetPathData_rewrites_only_initial_move 90 90
    (pieceNeighborShape (neighborsData 1 2 (fun _ => false) 0 1))
    (Or.inl (by decide))

end Puzzle
